import Mathlib

/-!
Verification of the `jira-auto` CLI (src/index.js): a shallow embedding of
the ticket-creation pipeline — environment validation, input validation,
prompt construction, AI-reply handling, Jira payload construction and
submission — together with proofs about its behaviour.

External effects (the OpenAI completion call and the Jira HTTP POST) are
modelled by passing their outcomes in as parameters and recording each
outbound call in a trace.
-/

set_option maxRecDepth 100000

namespace JiraAuto

/-- A JavaScript value that is either `undefined` or a string.  Used for the
fields destructured from the parsed AI reply (`const { summary, description,
acceptanceCriteria } = generated;` in src/index.js line 94): a key absent
from the parsed object yields `undefined`. -/
inductive JsStr where
  | undef : JsStr
  | str : String → JsStr
deriving DecidableEq

/-- JavaScript template-literal interpolation of a possibly-undefined value:
`${undefined}` produces the literal text `"undefined"`. -/
def JsStr.interp : JsStr → String
  | .undef => "undefined"
  | .str s => s

/-- The CLI options: `--type`, `--priority`, `--input` (all required by
commander, src/index.js lines 15-17). -/
structure Options where
  type : String
  priority : String
  input : String
deriving DecidableEq

/-- The result of `JSON.parse` on the AI reply followed by destructuring the
three expected keys: each field is the key's string value, or `undefined`
when the key is absent. -/
structure ParsedReply where
  summary : JsStr
  description : JsStr
  acceptanceCriteria : JsStr
deriving DecidableEq

/-- Outcome of the call to the completion service, as observed by the code at
src/index.js lines 80-92: the call may throw (transport/API error), return
text that is not valid JSON, or return text that parses to an object. -/
inductive AiResponse where
  | transportError (msg : String)
  | notJson
  | json (r : ParsedReply)
deriving DecidableEq

/-- Outcome of `axios.post` to the issue tracker (src/index.js line 121):
a success response carrying `data.key`, or a thrown HTTP error. -/
inductive JiraResponse where
  | ok (key : String)
  | httpError (msg : String)
deriving DecidableEq

/-- `{ key: ... }` — the `project` member of the Jira payload. -/
structure ProjectRef where
  key : String
deriving DecidableEq

/-- `{ name: ... }` — the `issuetype` and `priority` members of the payload. -/
structure NameRef where
  name : String
deriving DecidableEq

/-- The `fields` object of the Jira issue-creation payload
(src/index.js lines 105-119). -/
structure JiraFields where
  project : ProjectRef
  summary : JsStr
  description : String
  issuetype : NameRef
  priority : NameRef
deriving DecidableEq

/-- The JSON body posted to the issue tracker: `{ fields: { ... } }`. -/
structure JiraPayload where
  fields : JiraFields
deriving DecidableEq

/-- One outbound network call, as issued by the pipeline. -/
inductive NetCall where
  | openaiCall (model : String) (promptMsg : String) (maxTokens : Nat)
  | jiraPost (url : String) (payload : JiraPayload) (headers : List (String × String))
deriving DecidableEq

/-- The observable result of one CLI invocation: the stdout lines, the stderr
lines, the process exit status, and the trace of outbound network calls in
order. -/
structure RunResult where
  stdout : List String
  stderr : List String
  exitCode : Nat
  calls : List NetCall
deriving DecidableEq

/-- Whether a `NetCall` is a POST to the issue tracker. -/
def NetCall.isJira : NetCall → Bool
  | .jiraPost _ _ _ => true
  | _ => false

/-! ## UTF-8 and base64 (model of `Buffer.from(s).toString('base64')`) -/

/-- Standard UTF-8 encoding of a Unicode code point as a byte list. -/
def utf8EncodeChar (n : Nat) : List Nat :=
  if n < 128 then [n]
  else if n < 2048 then [192 + n / 64, 128 + n % 64]
  else if n < 65536 then [224 + n / 4096, 128 + (n / 64) % 64, 128 + n % 64]
  else [240 + n / 262144, 128 + (n / 4096) % 64, 128 + (n / 64) % 64, 128 + n % 64]

/-- The UTF-8 bytes of a string (what `Buffer.from(s)` holds). -/
def stringBytes (s : String) : List Nat :=
  (s.data.map (fun c => utf8EncodeChar c.toNat)).flatten

/-- The base64 digit alphabet `A-Z a-z 0-9 + /`. -/
def base64Digit (n : Nat) : Char :=
  if n < 26 then Char.ofNat (65 + n)
  else if n < 52 then Char.ofNat (97 + (n - 26))
  else if n < 62 then Char.ofNat (48 + (n - 52))
  else if n = 62 then '+'
  else '/'

/-- Standard base64 encoding of a byte list, three bytes per group, with
`=` padding. -/
def base64Chunks : List Nat → List Char
  | [] => []
  | [a] => [base64Digit (a / 4), base64Digit (a % 4 * 16), '=', '=']
  | [a, b] => [base64Digit (a / 4), base64Digit (a % 4 * 16 + b / 16),
               base64Digit (b % 16 * 4), '=']
  | a :: b :: c :: rest =>
      base64Digit (a / 4) :: base64Digit (a % 4 * 16 + b / 16) ::
      base64Digit (b % 16 * 4 + c / 64) :: base64Digit (c % 64) :: base64Chunks rest

/-- `Buffer.from(s).toString('base64')` (src/index.js line 103). -/
def jsBase64 (s : String) : String :=
  ⟨base64Chunks (stringBytes s)⟩

/-! ## Configuration and input validation -/

/-- The required environment variables, in the order the loop checks them
(src/index.js line 21). -/
def requiredEnvVars : List String :=
  ["JIRA_BASE_URL", "JIRA_EMAIL", "JIRA_API_TOKEN", "JIRA_PROJECT_KEY", "OPENAI_API_KEY"]

/-- JavaScript truthiness test `!process.env[varName]` on an environment
value: an unset variable (`undefined`) and the empty string are both falsy;
every other string is truthy. -/
def envFalsy : Option String → Bool
  | none => true
  | some s => s == ""

/-- The first required variable (in declaration order) whose value is falsy,
mirroring the `for ... if (!process.env[varName]) throw` loop
(src/index.js lines 22-26). -/
def firstBadVar (env : String → Option String) : Option String :=
  requiredEnvVars.find? (fun n => envFalsy (env n))

/-- Reading `process.env[n]` inside a template literal: an unset variable
interpolates as the text `"undefined"`. -/
def envVal (env : String → Option String) (n : String) : String :=
  match env n with
  | none => "undefined"
  | some s => s

/-- `validTypes` (src/index.js line 31). -/
def validTypes : List String := ["Bug", "Task", "Story"]

/-- `validPriorities` (src/index.js line 37). -/
def validPriorities : List String := ["Lowest", "Low", "Medium", "High", "Highest"]

/-- The message thrown for a missing environment variable
(src/index.js line 24). -/
def configErrorMsg (v : String) : String :=
  "Environment variable " ++ v ++ " is required. Please set it in your .env file."

/-- The message thrown for an invalid `--type` (src/index.js line 33). -/
def typeErrorMsg : String :=
  "Invalid type. Must be one of: " ++ String.intercalate ", " validTypes

/-- The message thrown for an invalid `--priority` (src/index.js line 39). -/
def priorityErrorMsg : String :=
  "Invalid priority. Must be one of: " ++ String.intercalate ", " validPriorities

/-! ## Prompt construction (src/index.js lines 49-78) -/

/-- The prompt text before the interpolated ticket type. -/
def promptHead : String :=
  "\nGenerate a Jira ticket based on the following:\n\nTicket Type: "

/-- The prompt text between the ticket type and the priority. -/
def promptMid1 : String := "\nPriority: "

/-- The prompt text between the priority and the free-text input. -/
def promptMid2 : String := "\nDescription: "

/-- The template text after the free-text input, up to and including the
line where the Bug-only step is interpolated. -/
def promptTailA : String :=
  "\n\nUse the following template:\n\nSummary: [Concise, action-oriented title]\n\nDescription:\n1. Background\n2. Problem / Requirement\n3. Expected Behavior\n"

/-- The template text after the Bug-only step. -/
def promptTailB : String :=
  "\n5. Notes / Constraints\n\nAcceptance Criteria:\n- Given ...\n- When ...\n- Then ...\n\nOutput the summary, description, and acceptance criteria in JSON format:\n\x7b\n  \"summary\": \"...\",\n  \"description\": \"...\",\n  \"acceptanceCriteria\": \"...\"\n\x7d\n"

/-- The ternary `${type === 'Bug' ? '4. Actual Behavior' : ''}`
(src/index.js line 64). -/
def bugStep (ty : String) : String :=
  if ty = "Bug" then "4. Actual Behavior" else ""

/-- The full prompt template literal (src/index.js lines 49-78). -/
def buildPrompt (ty pr inp : String) : String :=
  promptHead ++ ty ++ promptMid1 ++ pr ++ promptMid2 ++ inp
    ++ promptTailA ++ bugStep ty ++ promptTailB

/-! ## Content combination and payload -/

/-- `` `${description}\n\nAcceptance Criteria:\n${acceptanceCriteria}` ``
(src/index.js line 97). -/
def fullDescriptionOf (g : ParsedReply) : String :=
  g.description.interp ++ "\n\nAcceptance Criteria:\n" ++ g.acceptanceCriteria.interp

/-! ## The pipeline (the `action` body, src/index.js lines 18-139) -/

/-- An aborted run: the stdout printed so far, the calls issued so far, and
the single `Error: <message>` line on stderr with exit status 1
(the catch block, src/index.js lines 135-138). -/
def failRun (stdout : List String) (calls : List NetCall) (msg : String) : RunResult :=
  { stdout := stdout, stderr := ["Error: " ++ msg], exitCode := 1, calls := calls }

/-- The completion call issued at src/index.js lines 80-84: model
`'gpt-3.5-turbo'`, one user message holding the prompt, `max_tokens: 1000`. -/
def aiCallOf (opts : Options) : NetCall :=
  .openaiCall "gpt-3.5-turbo" (buildPrompt opts.type opts.priority opts.input) 1000

/-- `` `${process.env.JIRA_BASE_URL}/rest/api/3/issue` `` (src/index.js line 102). -/
def jiraUrlOf (env : String → Option String) : String :=
  envVal env "JIRA_BASE_URL" ++ "/rest/api/3/issue"

/-- `Buffer.from(`${email}:${token}`).toString('base64')` (src/index.js line 103). -/
def authOf (env : String → Option String) : String :=
  jsBase64 (envVal env "JIRA_EMAIL" ++ ":" ++ envVal env "JIRA_API_TOKEN")

/-- The issue-creation payload (src/index.js lines 105-119). -/
def payloadOf (env : String → Option String) (opts : Options) (g : ParsedReply) : JiraPayload :=
  ⟨⟨⟨envVal env "JIRA_PROJECT_KEY"⟩, g.summary, fullDescriptionOf g,
    ⟨opts.type⟩, ⟨opts.priority⟩⟩⟩

/-- The request headers (src/index.js lines 122-125). -/
def headersOf (env : String → Option String) : List (String × String) :=
  [("Authorization", "Basic " ++ authOf env), ("Content-Type", "application/json")]

/-- The `axios.post` call to the issue tracker (src/index.js line 121). -/
def jiraCallOf (env : String → Option String) (opts : Options) (g : ParsedReply) : NetCall :=
  .jiraPost (jiraUrlOf env) (payloadOf env opts g) (headersOf env)

/-- One invocation of the CLI with environment `env`, options `opts`, and
the outcomes of the two external calls given by `ai` and `jira`.  A direct
translation of the `action` body in src/index.js. -/
def run (env : String → Option String) (opts : Options)
    (ai : AiResponse) (jira : JiraResponse) : RunResult :=
  match firstBadVar env with
  | some v => failRun [] [] (configErrorMsg v)
  | none =>
    if opts.type ∉ validTypes then failRun [] [] typeErrorMsg
    else if opts.priority ∉ validPriorities then failRun [] [] priorityErrorMsg
    else
      let log1 := "Generating ticket content using AI..."
      match ai with
      | .transportError m => failRun [log1] [aiCallOf opts] m
      | .notJson =>
          failRun [log1] [aiCallOf opts] "Failed to parse AI response. Please try again."
      | .json g =>
        let log2 := "Creating Jira ticket..."
        match jira with
        | .httpError m => failRun [log1, log2] [aiCallOf opts, jiraCallOf env opts g] m
        | .ok key =>
          { stdout := [log1, log2, "Ticket created successfully!", "Key: " ++ key,
                       "URL: " ++ envVal env "JIRA_BASE_URL" ++ "/browse/" ++ key],
            stderr := [],
            exitCode := 0,
            calls := [aiCallOf opts, jiraCallOf env opts g] }

/-- A sample environment with every required variable set and nonempty. -/
def envAllSet : String → Option String := fun _ => some "x"

/-- A sample environment giving each Jira setting a distinct value. -/
def envDistinct : String → Option String := fun n =>
  if n = "JIRA_BASE_URL" then some "https://x.example"
  else if n = "JIRA_EMAIL" then some "e@x"
  else if n = "JIRA_API_TOKEN" then some "tok"
  else if n = "JIRA_PROJECT_KEY" then some "PROJ"
  else some "k"

/-! ## Contiguous-occurrence theory for character lists

Used to state and prove which instruction steps occur in the generated
prompt text. -/

/-- `p` is a prefix of `l`. -/
def LeadsIn (p l : List Char) : Prop := ∃ r, p ++ r = l

/-- `p` is a suffix of `l`. -/
def EndsIn (p l : List Char) : Prop := ∃ r, r ++ p = l

/-- `p` occurs contiguously inside `l`. -/
def OccursIn (p l : List Char) : Prop := ∃ u v, u ++ p ++ v = l

/-- Boolean prefix test. -/
def prefB : List Char → List Char → Bool
  | [], _ => true
  | _ :: _, [] => false
  | a :: p, b :: l => a == b && prefB p l

/-- Boolean suffix test. -/
def suffB (p l : List Char) : Bool := prefB p.reverse l.reverse

/-- Boolean occurrence test. -/
def occB (p : List Char) : List Char → Bool
  | [] => prefB p []
  | c :: t => prefB p (c :: t) || occB p t

theorem prefB_iff : ∀ p l : List Char, prefB p l = true ↔ LeadsIn p l
  | [], l => by simp [prefB, LeadsIn]
  | a :: p, [] => by simp [prefB, LeadsIn]
  | a :: p, b :: l => by
    simp only [prefB, Bool.and_eq_true, beq_iff_eq, LeadsIn, List.cons_append,
      List.cons.injEq]
    rw [prefB_iff p l]
    constructor
    · rintro ⟨rfl, r, hr⟩
      exact ⟨r, rfl, hr⟩
    · rintro ⟨r, rfl, hr⟩
      exact ⟨rfl, r, hr⟩

theorem suffB_iff (p l : List Char) : suffB p l = true ↔ EndsIn p l := by
  rw [suffB, prefB_iff]
  constructor
  · rintro ⟨r, hr⟩
    refine ⟨r.reverse, ?_⟩
    have := congrArg List.reverse hr
    simpa using this
  · rintro ⟨r, rfl⟩
    exact ⟨r.reverse, by simp⟩

theorem occB_iff : ∀ p l : List Char, occB p l = true ↔ OccursIn p l
  | p, [] => by
    rw [occB, prefB_iff]
    constructor
    · rintro ⟨r, hr⟩
      rcases List.append_eq_nil.mp hr with ⟨rfl, rfl⟩
      exact ⟨[], [], rfl⟩
    · rintro ⟨u, v, huv⟩
      rcases List.append_eq_nil.mp huv with ⟨h1, rfl⟩
      rcases List.append_eq_nil.mp h1 with ⟨rfl, rfl⟩
      exact ⟨[], rfl⟩
  | p, c :: t => by
    rw [occB, Bool.or_eq_true, prefB_iff, occB_iff p t]
    constructor
    · rintro (⟨r, hr⟩ | ⟨u, v, huv⟩)
      · exact ⟨[], r, by simpa using hr⟩
      · exact ⟨c :: u, v, by simp [huv]⟩
    · rintro ⟨u, v, huv⟩
      cases u with
      | nil => exact Or.inl ⟨v, by simpa using huv⟩
      | cons d u' =>
        right
        simp only [List.cons_append, List.cons.injEq] at huv
        exact ⟨u', v, huv.2⟩

instance (p l : List Char) : Decidable (LeadsIn p l) :=
  decidable_of_iff _ (prefB_iff p l)

instance (p l : List Char) : Decidable (EndsIn p l) :=
  decidable_of_iff _ (suffB_iff p l)

instance (p l : List Char) : Decidable (OccursIn p l) :=
  decidable_of_iff _ (occB_iff p l)

theorem occursIn_of_right {p b : List Char} (a : List Char) (h : OccursIn p b) :
    OccursIn p (a ++ b) := by
  obtain ⟨u, v, huv⟩ := h
  exact ⟨a ++ u, v, by rw [← huv]; simp⟩

theorem occursIn_of_left {p a : List Char} (b : List Char) (h : OccursIn p a) :
    OccursIn p (a ++ b) := by
  obtain ⟨u, v, huv⟩ := h
  exact ⟨u, v ++ b, by rw [← huv]; simp⟩

/-- Any occurrence in `a ++ b` lies inside `a`, lies inside `b`, or splits
into a nonempty suffix of `a` followed by a nonempty prefix of `b`. -/
theorem occursIn_append_cases {p a b : List Char} (h : OccursIn p (a ++ b)) :
    OccursIn p a ∨ OccursIn p b ∨
      ∃ s t, s ++ t = p ∧ s ≠ [] ∧ t ≠ [] ∧ EndsIn s a ∧ LeadsIn t b := by
  obtain ⟨u, v, huv⟩ := h
  rw [List.append_assoc] at huv
  rcases List.append_eq_append_iff.mp huv with ⟨w, hw, hpv⟩ | ⟨z, hz, hb⟩
  · rcases List.append_eq_append_iff.mp hpv with ⟨x, hx, hv⟩ | ⟨y, hy, hb'⟩
    · left
      refine ⟨u, x, ?_⟩
      rw [List.append_assoc, ← hx]
      exact hw.symm
    · rcases eq_or_ne w [] with rfl | hwne
      · right; left
        refine ⟨[], v, ?_⟩
        simp only [List.nil_append] at hy ⊢
        rw [hy]
        exact hb'.symm
      · rcases eq_or_ne y [] with rfl | hyne
        · left
          refine ⟨u, [], ?_⟩
          rw [List.append_nil] at hy ⊢
          rw [hy, ← hw]
        · right; right
          exact ⟨w, y, hy.symm, hwne, hyne, ⟨u, hw.symm⟩, ⟨v, hb'.symm⟩⟩
  · right; left
    refine ⟨z, v, ?_⟩
    rw [List.append_assoc]
    exact hb.symm

/-- No occurrence of `p` can straddle the junction between `a` and `b`. -/
def NoCross (p a b : List Char) : Prop :=
  ∀ s t, s ++ t = p → s ≠ [] → t ≠ [] → ¬(EndsIn s a ∧ LeadsIn t b)

theorem not_occursIn_append {p a b : List Char}
    (ha : ¬ OccursIn p a) (hb : ¬ OccursIn p b) (hc : NoCross p a b) :
    ¬ OccursIn p (a ++ b) := by
  intro h
  rcases occursIn_append_cases h with h | h | ⟨s, t, hst, hs, ht, hsa, htb⟩
  · exact ha h
  · exact hb h
  · exact hc s t hst hs ht ⟨hsa, htb⟩

/-- If the first character of `b` never occurs in `p`, then no occurrence of
`p` can straddle the junction between `a` and `b`. -/
theorem noCross_of_head {p a b : List Char} {c : Char}
    (hb : b.head? = some c) (hc : c ∉ p) : NoCross p a b := by
  rintro s t hst hs ht ⟨-, r, hr⟩
  cases t with
  | nil => exact ht rfl
  | cons d t' =>
    have hd : d = c := by
      rw [List.cons_append] at hr
      rw [← hr] at hb
      simpa using hb
    have hmem : d ∈ p := by
      rw [← hst]
      exact List.mem_append_right _ (List.mem_cons_self _ _)
    rw [hd] at hmem
    exact hc hmem

/-- If no nonempty proper prefix of `p` is a suffix of `a`, then no
occurrence of `p` can straddle the junction between `a` and `b`. -/
theorem noCross_of_take {p a b : List Char}
    (h : ∀ i, i < p.length → 0 < i → ¬ EndsIn (p.take i) a) : NoCross p a b := by
  rintro s t hst hs ht ⟨hsa, -⟩
  have htake : p.take s.length = s := by
    rw [← hst]
    exact List.take_left s t
  have hlen : s.length < p.length := by
    rw [← hst, List.length_append]
    have h0 : 0 < t.length := List.length_pos.mpr ht
    omega
  have h0 : 0 < s.length := List.length_pos.mpr hs
  exact h s.length hlen h0 (by rw [htake]; exact hsa)

theorem head?_append_eq {a b : List Char} {c : Char} (h : a.head? = some c) :
    (a ++ b).head? = some c := by
  cases a with
  | nil => simp at h
  | cons d t => simpa using h

/-! ## Occurrence facts about the prompt -/

/-- The Bug-only instruction step for documenting actual behavior. -/
def actualStep : String := "4. Actual Behavior"

/-- The instruction step for documenting expected behavior, present in the
template for every ticket type. -/
def expectedStep : String := "3. Expected Behavior"

theorem data_append (a b : String) : (a ++ b).data = a.data ++ b.data := rfl

theorem buildPrompt_data (ty pr inp : String) :
    (buildPrompt ty pr inp).data =
      promptHead.data ++ (ty.data ++ (promptMid1.data ++ (pr.data ++ (promptMid2.data ++
        (inp.data ++ (promptTailA.data ++ ((bugStep ty).data ++ promptTailB.data))))))) := by
  simp [buildPrompt, data_append, List.append_assoc]

/-- For a non-Bug ticket type whose name neither contains the Bug-only step
nor starts with one of its characters, the Bug-only step does not occur
anywhere in the generated prompt, provided it does not occur in the
priority or in the free-text input. -/
theorem prompt_no_actual_core (ty pr inp : String)
    (h1 : ¬ OccursIn actualStep.data ty.data)
    (h2 : ∃ c, ty.data.head? = some c ∧ c ∉ actualStep.data)
    (h3 : bugStep ty = "")
    (h4 : ¬ OccursIn actualStep.data pr.data)
    (h5 : ¬ OccursIn actualStep.data inp.data) :
    ¬ OccursIn actualStep.data (buildPrompt ty pr inp).data := by
  obtain ⟨c, hc, hcp⟩ := h2
  rw [buildPrompt_data, h3]
  have hG : ¬ OccursIn actualStep.data
      (promptTailA.data ++ (("" : String).data ++ promptTailB.data)) := by decide
  have hGh : (promptTailA.data ++ (("" : String).data ++ promptTailB.data)).head?
      = some '\n' := head?_append_eq (by decide)
  have h6 : ¬ OccursIn actualStep.data
      (inp.data ++ (promptTailA.data ++ (("" : String).data ++ promptTailB.data))) :=
    not_occursIn_append h5 hG (noCross_of_head hGh (by decide))
  have h7 : ¬ OccursIn actualStep.data
      (promptMid2.data ++ (inp.data ++ (promptTailA.data ++
        (("" : String).data ++ promptTailB.data)))) :=
    not_occursIn_append (by decide) h6 (noCross_of_take (by decide))
  have h8 : ¬ OccursIn actualStep.data
      (pr.data ++ (promptMid2.data ++ (inp.data ++ (promptTailA.data ++
        (("" : String).data ++ promptTailB.data))))) :=
    not_occursIn_append h4 h7
      (noCross_of_head (head?_append_eq (show promptMid2.data.head? = some '\n' by decide))
        (by decide))
  have h9 : ¬ OccursIn actualStep.data
      (promptMid1.data ++ (pr.data ++ (promptMid2.data ++ (inp.data ++ (promptTailA.data ++
        (("" : String).data ++ promptTailB.data)))))) :=
    not_occursIn_append (by decide) h8 (noCross_of_take (by decide))
  have h10 : ¬ OccursIn actualStep.data
      (ty.data ++ (promptMid1.data ++ (pr.data ++ (promptMid2.data ++ (inp.data ++
        (promptTailA.data ++ (("" : String).data ++ promptTailB.data))))))) :=
    not_occursIn_append h1 h9
      (noCross_of_head (head?_append_eq (show promptMid1.data.head? = some '\n' by decide))
        (by decide))
  exact not_occursIn_append (by decide) h10 (noCross_of_head (head?_append_eq hc) hcp)

/-- The Bug-only step does not occur in any of the five valid priorities. -/
theorem no_actual_in_priority (pr : String) (hpr : pr ∈ validPriorities) :
    ¬ OccursIn actualStep.data pr.data := by
  simp only [validPriorities, List.mem_cons, List.not_mem_nil, or_false] at hpr
  rcases hpr with rfl | rfl | rfl | rfl | rfl <;> decide

/-! ## Evaluation lemmas for `run` -/

theorem envVal_eq {env : String → Option String} {n s : String} (h : env n = some s) :
    envVal env n = s := by
  simp [envVal, h]

theorem run_config_err {env : String → Option String} {v : String}
    (opts : Options) (ai : AiResponse) (jira : JiraResponse)
    (h : firstBadVar env = some v) :
    run env opts ai jira = failRun [] [] (configErrorMsg v) := by
  simp [run, h]

theorem run_bad_type {env : String → Option String} {opts : Options}
    (ai : AiResponse) (jira : JiraResponse)
    (henv : firstBadVar env = none) (hty : opts.type ∉ validTypes) :
    run env opts ai jira = failRun [] [] typeErrorMsg := by
  simp [run, henv, hty]

theorem run_bad_priority {env : String → Option String} {opts : Options}
    (ai : AiResponse) (jira : JiraResponse)
    (henv : firstBadVar env = none) (hty : opts.type ∈ validTypes)
    (hpr : opts.priority ∉ validPriorities) :
    run env opts ai jira = failRun [] [] priorityErrorMsg := by
  simp [run, henv, hty, hpr]

theorem run_transport_err {env : String → Option String} {opts : Options} {m : String}
    (jira : JiraResponse)
    (henv : firstBadVar env = none) (hty : opts.type ∈ validTypes)
    (hpr : opts.priority ∈ validPriorities) :
    run env opts (.transportError m) jira =
      failRun ["Generating ticket content using AI..."] [aiCallOf opts] m := by
  simp [run, henv, hty, hpr]

theorem run_not_json {env : String → Option String} {opts : Options}
    (jira : JiraResponse)
    (henv : firstBadVar env = none) (hty : opts.type ∈ validTypes)
    (hpr : opts.priority ∈ validPriorities) :
    run env opts .notJson jira =
      failRun ["Generating ticket content using AI..."] [aiCallOf opts]
        "Failed to parse AI response. Please try again." := by
  simp [run, henv, hty, hpr]

theorem run_json_http_err {env : String → Option String} {opts : Options}
    {g : ParsedReply} {m : String}
    (henv : firstBadVar env = none) (hty : opts.type ∈ validTypes)
    (hpr : opts.priority ∈ validPriorities) :
    run env opts (.json g) (.httpError m) =
      failRun ["Generating ticket content using AI...", "Creating Jira ticket..."]
        [aiCallOf opts, jiraCallOf env opts g] m := by
  simp [run, henv, hty, hpr]

theorem run_json_ok {env : String → Option String} {opts : Options}
    {g : ParsedReply} {key : String}
    (henv : firstBadVar env = none) (hty : opts.type ∈ validTypes)
    (hpr : opts.priority ∈ validPriorities) :
    run env opts (.json g) (.ok key) =
      { stdout := ["Generating ticket content using AI...", "Creating Jira ticket...",
                   "Ticket created successfully!", "Key: " ++ key,
                   "URL: " ++ envVal env "JIRA_BASE_URL" ++ "/browse/" ++ key],
        stderr := [],
        exitCode := 0,
        calls := [aiCallOf opts, jiraCallOf env opts g] } := by
  simp [run, henv, hty, hpr]

theorem run_json_calls {env : String → Option String} {opts : Options}
    (g : ParsedReply) (jira : JiraResponse)
    (henv : firstBadVar env = none) (hty : opts.type ∈ validTypes)
    (hpr : opts.priority ∈ validPriorities) :
    (run env opts (.json g) jira).calls = [aiCallOf opts, jiraCallOf env opts g] := by
  cases jira with
  | ok key => rw [run_json_ok henv hty hpr]
  | httpError m =>
    rw [run_json_http_err henv hty hpr]
    rfl

/-! ## Claim theorems -/

/-- Claim C2: whenever at least one required environment variable is missing
(unset, or — equivalently for the loader's `!process.env[v]` test — set to the
empty string), the run fails with the configuration error naming the first
such variable in the fixed declaration order, with exit status 1 and an empty
trace of network calls: neither the completion service nor the issue tracker
is contacted. -/
theorem c2_first_missing_env_var_reported
    (env : String → Option String) (opts : Options) (ai : AiResponse) (jira : JiraResponse)
    (h : ∃ v ∈ requiredEnvVars, envFalsy (env v) = true) :
    ∃ l1 l2 v, requiredEnvVars = l1 ++ v :: l2 ∧
      envFalsy (env v) = true ∧
      (∀ w ∈ l1, envFalsy (env w) = false) ∧
      run env opts ai jira =
        { stdout := [], stderr := ["Error: " ++ configErrorMsg v],
          exitCode := 1, calls := [] } := by
  by_cases e1 : envFalsy (env "JIRA_BASE_URL") = true
  · have hfb : firstBadVar env = some "JIRA_BASE_URL" := by
      simp [firstBadVar, requiredEnvVars, List.find?, e1]
    exact ⟨[], ["JIRA_EMAIL", "JIRA_API_TOKEN", "JIRA_PROJECT_KEY", "OPENAI_API_KEY"],
      "JIRA_BASE_URL", rfl, e1, by simp, run_config_err opts ai jira hfb⟩
  · simp only [Bool.not_eq_true] at e1
    by_cases e2 : envFalsy (env "JIRA_EMAIL") = true
    · have hfb : firstBadVar env = some "JIRA_EMAIL" := by
        simp [firstBadVar, requiredEnvVars, List.find?, e1, e2]
      exact ⟨["JIRA_BASE_URL"], ["JIRA_API_TOKEN", "JIRA_PROJECT_KEY", "OPENAI_API_KEY"],
        "JIRA_EMAIL", rfl, e2, by simp [e1], run_config_err opts ai jira hfb⟩
    · simp only [Bool.not_eq_true] at e2
      by_cases e3 : envFalsy (env "JIRA_API_TOKEN") = true
      · have hfb : firstBadVar env = some "JIRA_API_TOKEN" := by
          simp [firstBadVar, requiredEnvVars, List.find?, e1, e2, e3]
        exact ⟨["JIRA_BASE_URL", "JIRA_EMAIL"], ["JIRA_PROJECT_KEY", "OPENAI_API_KEY"],
          "JIRA_API_TOKEN", rfl, e3, by simp [e1, e2], run_config_err opts ai jira hfb⟩
      · simp only [Bool.not_eq_true] at e3
        by_cases e4 : envFalsy (env "JIRA_PROJECT_KEY") = true
        · have hfb : firstBadVar env = some "JIRA_PROJECT_KEY" := by
            simp [firstBadVar, requiredEnvVars, List.find?, e1, e2, e3, e4]
          exact ⟨["JIRA_BASE_URL", "JIRA_EMAIL", "JIRA_API_TOKEN"], ["OPENAI_API_KEY"],
            "JIRA_PROJECT_KEY", rfl, e4, by simp [e1, e2, e3], run_config_err opts ai jira hfb⟩
        · simp only [Bool.not_eq_true] at e4
          by_cases e5 : envFalsy (env "OPENAI_API_KEY") = true
          · have hfb : firstBadVar env = some "OPENAI_API_KEY" := by
              simp [firstBadVar, requiredEnvVars, List.find?, e1, e2, e3, e4, e5]
            exact ⟨["JIRA_BASE_URL", "JIRA_EMAIL", "JIRA_API_TOKEN", "JIRA_PROJECT_KEY"], [],
              "OPENAI_API_KEY", rfl, e5, by simp [e1, e2, e3, e4],
              run_config_err opts ai jira hfb⟩
          · simp only [Bool.not_eq_true] at e5
            exfalso
            obtain ⟨v, hv, hfal⟩ := h
            simp only [requiredEnvVars, List.mem_cons, List.not_mem_nil, or_false] at hv
            rcases hv with rfl | rfl | rfl | rfl | rfl <;> simp_all

/-- Witness for C2 at the everything-unset environment. -/
theorem c2_witness :
    (∃ v ∈ requiredEnvVars, envFalsy ((fun _ => (none : Option String)) v) = true) ∧
    (∃ l1 l2 v, requiredEnvVars = l1 ++ v :: l2 ∧
      envFalsy ((fun _ => (none : Option String)) v) = true ∧
      (∀ w ∈ l1, envFalsy ((fun _ => (none : Option String)) w) = false) ∧
      run (fun _ => none) ⟨"Bug", "High", "i"⟩ .notJson (.ok "K") =
        { stdout := [], stderr := ["Error: " ++ configErrorMsg v],
          exitCode := 1, calls := [] }) :=
  ⟨⟨"JIRA_BASE_URL", by decide, rfl⟩,
    c2_first_missing_env_var_reported (fun _ => none) ⟨"Bug", "High", "i"⟩ .notJson (.ok "K")
      ⟨"JIRA_BASE_URL", by decide, rfl⟩⟩

/-- Claim C9: a required variable set to the empty string is treated exactly
like an unset one: the run result is identical to the run where the variable
is removed from the environment, and it is a configuration failure (exit 1,
no network calls, a single configuration-error line). -/
theorem c9_empty_env_var_like_unset
    (env : String → Option String) (opts : Options) (ai : AiResponse) (jira : JiraResponse)
    (v : String) (hv : v ∈ requiredEnvVars) (hempty : env v = some "") :
    run env opts ai jira = run (fun n => if n = v then none else env n) opts ai jira ∧
    (run env opts ai jira).calls = [] ∧
    (run env opts ai jira).exitCode = 1 ∧
    ∃ w ∈ requiredEnvVars, (run env opts ai jira).stderr = ["Error: " ++ configErrorMsg w] := by
  have hpt : (fun n => envFalsy (if n = v then none else env n))
      = fun n => envFalsy (env n) := by
    funext n
    by_cases hn : n = v
    · subst hn
      simp [hempty, envFalsy]
    · simp [hn]
  have hfbeq : firstBadVar (fun n => if n = v then none else env n) = firstBadVar env := by
    simp only [firstBadVar]
    rw [hpt]
  obtain ⟨w, hwmem, hw⟩ : ∃ w, w ∈ requiredEnvVars ∧ firstBadVar env = some w := by
    rcases hfb : firstBadVar env with _ | w
    · exfalso
      simp only [firstBadVar] at hfb
      have h2 := List.find?_eq_none.mp hfb v hv
      rw [hempty] at h2
      simp [envFalsy] at h2
    · exact ⟨w, List.mem_of_find?_eq_some (by simpa only [firstBadVar] using hfb), rfl⟩
  have hw' : firstBadVar (fun n => if n = v then none else env n) = some w := by
    rw [hfbeq, hw]
  refine ⟨?_, ?_, ?_, w, hwmem, ?_⟩
  · rw [run_config_err opts ai jira hw, run_config_err opts ai jira hw']
  · rw [run_config_err opts ai jira hw]
    rfl
  · rw [run_config_err opts ai jira hw]
    rfl
  · rw [run_config_err opts ai jira hw]
    rfl

/-- Witness for C9: `JIRA_EMAIL` set to the empty string, all others set. -/
theorem c9_witness :
    ("JIRA_EMAIL" : String) ∈ requiredEnvVars ∧
    (fun n => if n = "JIRA_EMAIL" then some "" else envAllSet n) "JIRA_EMAIL" = some "" ∧
    ((run (fun n => if n = "JIRA_EMAIL" then some "" else envAllSet n)
        ⟨"Bug", "High", "i"⟩ .notJson (.ok "K")).calls = [] ∧
     (run (fun n => if n = "JIRA_EMAIL" then some "" else envAllSet n)
        ⟨"Bug", "High", "i"⟩ .notJson (.ok "K")).exitCode = 1) :=
  ⟨by decide, by decide,
    (c9_empty_env_var_like_unset (fun n => if n = "JIRA_EMAIL" then some "" else envAllSet n)
      ⟨"Bug", "High", "i"⟩ .notJson (.ok "K") "JIRA_EMAIL" (by decide) (by decide)).2.1,
    (c9_empty_env_var_like_unset (fun n => if n = "JIRA_EMAIL" then some "" else envAllSet n)
      ⟨"Bug", "High", "i"⟩ .notJson (.ok "K") "JIRA_EMAIL" (by decide) (by decide)).2.2.1⟩

/-- Claim C3: input validation accepts a type string iff it is one of Bug,
Task, Story, and a priority string iff it is one of Lowest, Low, Medium,
High, Highest; any other value makes the run fail (exit 1, no network calls)
with a message listing the accepted set; on accepted inputs the run proceeds
to the completion call. -/
theorem c3_type_priority_validation
    (env : String → Option String) (opts : Options) (ai : AiResponse) (jira : JiraResponse)
    (henv : firstBadVar env = none) :
    (opts.type ∈ validTypes ↔
      opts.type = "Bug" ∨ opts.type = "Task" ∨ opts.type = "Story") ∧
    (opts.priority ∈ validPriorities ↔
      opts.priority = "Lowest" ∨ opts.priority = "Low" ∨ opts.priority = "Medium" ∨
        opts.priority = "High" ∨ opts.priority = "Highest") ∧
    (opts.type ∉ validTypes →
      run env opts ai jira =
        { stdout := [], stderr := ["Error: Invalid type. Must be one of: Bug, Task, Story"],
          exitCode := 1, calls := [] }) ∧
    (opts.type ∈ validTypes → opts.priority ∉ validPriorities →
      run env opts ai jira =
        { stdout := [],
          stderr := ["Error: Invalid priority. Must be one of: Lowest, Low, Medium, High, Highest"],
          exitCode := 1, calls := [] }) ∧
    (opts.type ∈ validTypes → opts.priority ∈ validPriorities →
      (run env opts ai jira).calls.head? = some (aiCallOf opts)) := by
  refine ⟨by simp [validTypes], by simp [validPriorities], ?_, ?_, ?_⟩
  · intro hty
    rw [run_bad_type ai jira henv hty]
    rfl
  · intro hty hpr
    rw [run_bad_priority ai jira henv hty hpr]
    rfl
  · intro hty hpr
    cases ai with
    | transportError m =>
      rw [run_transport_err jira henv hty hpr]
      rfl
    | notJson =>
      rw [run_not_json jira henv hty hpr]
      rfl
    | json g =>
      cases jira with
      | ok key =>
        rw [run_json_ok henv hty hpr]
        rfl
      | httpError m =>
        rw [run_json_http_err henv hty hpr]
        rfl

/-- Witness for C3: a rejected type at a fully-set environment. -/
theorem c3_witness :
    firstBadVar envAllSet = none ∧
    (⟨"Epic", "High", "i"⟩ : Options).type ∉ validTypes ∧
    run envAllSet ⟨"Epic", "High", "i"⟩ .notJson (.ok "K") =
      { stdout := [], stderr := ["Error: Invalid type. Must be one of: Bug, Task, Story"],
        exitCode := 1, calls := [] } :=
  ⟨by decide, by decide,
    (c3_type_priority_validation envAllSet ⟨"Epic", "High", "i"⟩ .notJson (.ok "K")
      (by decide)).2.2.1 (by decide)⟩

/-- Claim C5: when the completion reply is not valid JSON, the run fails with
exactly the message `Failed to parse AI response. Please try again.` (which
instructs the user to retry), having issued exactly one completion call and
no submission call — no automatic retry of the completion call occurs. -/
theorem c5_unparsable_reply_fails_no_retry
    (env : String → Option String) (opts : Options) (jira : JiraResponse)
    (henv : firstBadVar env = none) (hty : opts.type ∈ validTypes)
    (hpr : opts.priority ∈ validPriorities) :
    run env opts .notJson jira =
      { stdout := ["Generating ticket content using AI..."],
        stderr := ["Error: Failed to parse AI response. Please try again."],
        exitCode := 1,
        calls := [aiCallOf opts] } ∧
    OccursIn "Please try again.".data "Failed to parse AI response. Please try again.".data ∧
    (run env opts .notJson jira).calls.filter NetCall.isJira = [] ∧
    ((run env opts .notJson jira).calls.filter (fun c => ! c.isJira)).length = 1 := by
  refine ⟨?_, by decide, ?_, ?_⟩
  · rw [run_not_json jira henv hty hpr]
    rfl
  · rw [run_not_json jira henv hty hpr]
    rfl
  · rw [run_not_json jira henv hty hpr]
    rfl

/-- Witness for C5 at a concrete valid request. -/
theorem c5_witness :
    firstBadVar envAllSet = none ∧
    (⟨"Bug", "High", "i"⟩ : Options).type ∈ validTypes ∧
    (⟨"Bug", "High", "i"⟩ : Options).priority ∈ validPriorities ∧
    run envAllSet ⟨"Bug", "High", "i"⟩ .notJson (.ok "K") =
      { stdout := ["Generating ticket content using AI..."],
        stderr := ["Error: Failed to parse AI response. Please try again."],
        exitCode := 1,
        calls := [aiCallOf ⟨"Bug", "High", "i"⟩] } :=
  ⟨by decide, by decide, by decide,
    (c5_unparsable_reply_fails_no_retry envAllSet ⟨"Bug", "High", "i"⟩ (.ok "K")
      (by decide) (by decide) (by decide)).1⟩

/-- Claim C6: whenever the pipeline reaches submission, the trace contains a
single POST to the issue tracker, at `<base_url>/rest/api/3/issue`, carrying
`Authorization: Basic <base64(email ++ ":" ++ token)>` (base64 of the UTF-8
bytes) and a JSON body of shape
`{fields: {project: {key}, summary, description, issuetype: {name}, priority: {name}}}`
with the configured project key, the validated type and the validated
priority. -/
theorem c6_submission_request_shape
    (env : String → Option String) (opts : Options) (g : ParsedReply) (jira : JiraResponse)
    (base email token proj : String)
    (henv : firstBadVar env = none)
    (hty : opts.type ∈ validTypes) (hpr : opts.priority ∈ validPriorities)
    (hb : env "JIRA_BASE_URL" = some base) (he : env "JIRA_EMAIL" = some email)
    (htk : env "JIRA_API_TOKEN" = some token) (hpj : env "JIRA_PROJECT_KEY" = some proj) :
    (run env opts (.json g) jira).calls.filter NetCall.isJira =
      [NetCall.jiraPost (base ++ "/rest/api/3/issue")
        ⟨⟨⟨proj⟩, g.summary, fullDescriptionOf g, ⟨opts.type⟩, ⟨opts.priority⟩⟩⟩
        [("Authorization", "Basic " ++ jsBase64 (email ++ ":" ++ token)),
         ("Content-Type", "application/json")]] := by
  rw [run_json_calls g jira henv hty hpr]
  simp [List.filter, NetCall.isJira, aiCallOf, jiraCallOf, jiraUrlOf, payloadOf, headersOf,
    authOf, envVal_eq hb, envVal_eq he, envVal_eq htk, envVal_eq hpj]

/-- Witness for C6 at a concrete environment and request. -/
theorem c6_witness :
    firstBadVar envDistinct = none ∧
    envDistinct "JIRA_BASE_URL" = some "https://x.example" ∧
    envDistinct "JIRA_EMAIL" = some "e@x" ∧
    envDistinct "JIRA_API_TOKEN" = some "tok" ∧
    envDistinct "JIRA_PROJECT_KEY" = some "PROJ" ∧
    (run envDistinct ⟨"Task", "Low", "i"⟩
        (.json ⟨.str "s", .str "d", .str "a"⟩) (.ok "K")).calls.filter NetCall.isJira =
      [NetCall.jiraPost ("https://x.example" ++ "/rest/api/3/issue")
        ⟨⟨⟨"PROJ"⟩, .str "s", fullDescriptionOf ⟨.str "s", .str "d", .str "a"⟩,
          ⟨(⟨"Task", "Low", "i"⟩ : Options).type⟩, ⟨(⟨"Task", "Low", "i"⟩ : Options).priority⟩⟩⟩
        [("Authorization", "Basic " ++ jsBase64 ("e@x" ++ ":" ++ "tok")),
         ("Content-Type", "application/json")]] :=
  ⟨by decide, by decide, by decide, by decide, by decide,
    c6_submission_request_shape envDistinct ⟨"Task", "Low", "i"⟩
      ⟨.str "s", .str "d", .str "a"⟩ (.ok "K") "https://x.example" "e@x" "tok" "PROJ"
      (by decide) (by decide) (by decide) (by decide) (by decide) (by decide) (by decide)⟩

/-- Claim C7: for generated description `d` and acceptance criteria `a`, the
description submitted to the issue tracker is exactly
`d ++ "\n\n" ++ "Acceptance Criteria:\n" ++ a`: every issue-tracker POST in
the trace carries it, and such a POST exists. -/
theorem c7_combined_description
    (env : String → Option String) (opts : Options) (jira : JiraResponse)
    (d a : String) (s : JsStr)
    (henv : firstBadVar env = none) (hty : opts.type ∈ validTypes)
    (hpr : opts.priority ∈ validPriorities) :
    (∀ url p hs, NetCall.jiraPost url p hs ∈
        (run env opts (.json ⟨s, .str d, .str a⟩) jira).calls →
      p.fields.description = d ++ "\n\n" ++ "Acceptance Criteria:\n" ++ a) ∧
    (∃ url p hs, NetCall.jiraPost url p hs ∈
        (run env opts (.json ⟨s, .str d, .str a⟩) jira).calls ∧
      p.fields.description = d ++ "\n\n" ++ "Acceptance Criteria:\n" ++ a) := by
  have hfd : fullDescriptionOf ⟨s, .str d, .str a⟩ =
      d ++ "\n\n" ++ "Acceptance Criteria:\n" ++ a := by
    simp [fullDescriptionOf, JsStr.interp, String.append_assoc]
  rw [run_json_calls ⟨s, .str d, .str a⟩ jira henv hty hpr]
  constructor
  · intro url p hs hmem
    rcases List.mem_cons.mp hmem with h | h
    · exact absurd h (by simp [aiCallOf])
    · rcases List.mem_cons.mp h with h2 | h2
      · rw [jiraCallOf] at h2
        obtain ⟨-, hp, -⟩ := NetCall.jiraPost.inj h2
        rw [hp, payloadOf]
        exact hfd
      · exact absurd h2 (by simp)
  · refine ⟨jiraUrlOf env, payloadOf env opts ⟨s, .str d, .str a⟩, headersOf env, ?_, hfd⟩
    simp [jiraCallOf]

/-- Witness for C7 at a concrete parsed reply. -/
theorem c7_witness :
    firstBadVar envAllSet = none ∧
    (⟨"Story", "Medium", "i"⟩ : Options).type ∈ validTypes ∧
    (⟨"Story", "Medium", "i"⟩ : Options).priority ∈ validPriorities ∧
    (∃ url p hs, NetCall.jiraPost url p hs ∈
        (run envAllSet ⟨"Story", "Medium", "i"⟩
          (.json ⟨.str "s", .str "dd", .str "aa"⟩) (.ok "K")).calls ∧
      p.fields.description = "dd" ++ "\n\n" ++ "Acceptance Criteria:\n" ++ "aa") :=
  ⟨by decide, by decide, by decide,
    (c7_combined_description envAllSet ⟨"Story", "Medium", "i"⟩ (.ok "K") "dd" "aa" (.str "s")
      (by decide) (by decide) (by decide)).2⟩

/-- Counterexample to claim C1 as stated: with every environment variable
set and a valid request, a parsed reply in which all three keys are missing
does NOT make the pipeline fail — the run exits 0 with empty stderr and the
ticket-submission POST IS issued. -/
theorem c1_counterexample :
    (run envAllSet ⟨"Task", "Low", "i"⟩
        (.json ⟨.undef, .undef, .undef⟩) (.ok "K-1")).exitCode = 0 ∧
    (run envAllSet ⟨"Task", "Low", "i"⟩
        (.json ⟨.undef, .undef, .undef⟩) (.ok "K-1")).stderr = [] ∧
    ((run envAllSet ⟨"Task", "Low", "i"⟩
        (.json ⟨.undef, .undef, .undef⟩) (.ok "K-1")).calls.filter NetCall.isJira).length = 1 := by
  refine ⟨rfl, rfl, rfl⟩

/-- Claim C1 as amended: after `JSON.parse` succeeds, the code performs no
presence or non-emptiness check on `summary`, `description`,
`acceptanceCriteria`: EVERY parsed reply — including ones with missing or
empty fields — proceeds to the ticket-submission POST, and on tracker
success the run exits 0 with no error. -/
theorem c1_amended_no_key_validation
    (env : String → Option String) (opts : Options) (g : ParsedReply) (key : String)
    (henv : firstBadVar env = none) (hty : opts.type ∈ validTypes)
    (hpr : opts.priority ∈ validPriorities) :
    (run env opts (.json g) (.ok key)).exitCode = 0 ∧
    (run env opts (.json g) (.ok key)).stderr = [] ∧
    ((run env opts (.json g) (.ok key)).calls.filter NetCall.isJira).length = 1 := by
  refine ⟨?_, ?_, ?_⟩
  · rw [run_json_ok henv hty hpr]
  · rw [run_json_ok henv hty hpr]
  · rw [run_json_ok henv hty hpr]
    rfl

/-- Witness for the amended C1 at a reply with empty-string fields. -/
theorem c1_amended_witness :
    firstBadVar envAllSet = none ∧
    (⟨"Bug", "Lowest", "i"⟩ : Options).type ∈ validTypes ∧
    (⟨"Bug", "Lowest", "i"⟩ : Options).priority ∈ validPriorities ∧
    ((run envAllSet ⟨"Bug", "Lowest", "i"⟩
        (.json ⟨.str "", .str "", .str ""⟩) (.ok "K")).exitCode = 0 ∧
     ((run envAllSet ⟨"Bug", "Lowest", "i"⟩
        (.json ⟨.str "", .str "", .str ""⟩) (.ok "K")).calls.filter NetCall.isJira).length = 1) :=
  ⟨by decide, by decide, by decide,
    (c1_amended_no_key_validation envAllSet ⟨"Bug", "Lowest", "i"⟩
      ⟨.str "", .str "", .str ""⟩ "K" (by decide) (by decide) (by decide)).1,
    (c1_amended_no_key_validation envAllSet ⟨"Bug", "Lowest", "i"⟩
      ⟨.str "", .str "", .str ""⟩ "K" (by decide) (by decide) (by decide)).2.2⟩

/-- Counterexample to claim C4 as stated: on a fully successful run stdout
does not consist of exactly two lines — it has five. -/
theorem c4_counterexample :
    (run envDistinct ⟨"Bug", "High", "i"⟩
        (.json ⟨.str "s", .str "d", .str "a"⟩) (.ok "PROJ-123")).exitCode = 0 ∧
    (run envDistinct ⟨"Bug", "High", "i"⟩
        (.json ⟨.str "s", .str "d", .str "a"⟩) (.ok "PROJ-123")).stdout.length = 5 ∧
    ¬ (run envDistinct ⟨"Bug", "High", "i"⟩
        (.json ⟨.str "s", .str "d", .str "a"⟩) (.ok "PROJ-123")).stdout.length = 2 := by
  refine ⟨rfl, rfl, by decide⟩

/-- Claim C4 as amended: on a fully successful run the process exits 0 and
stdout is five lines: three progress lines followed by `Key: <key>` and
`URL: <url>`, where `<key>` is taken from the tracker's response and `<url>`
is the configured base URL, `/browse/`, and the key concatenated. -/
theorem c4_amended_success_output
    (env : String → Option String) (opts : Options) (g : ParsedReply)
    (key base : String)
    (henv : firstBadVar env = none) (hty : opts.type ∈ validTypes)
    (hpr : opts.priority ∈ validPriorities)
    (hb : env "JIRA_BASE_URL" = some base) :
    (run env opts (.json g) (.ok key)).exitCode = 0 ∧
    (run env opts (.json g) (.ok key)).stderr = [] ∧
    (run env opts (.json g) (.ok key)).stdout =
      ["Generating ticket content using AI...", "Creating Jira ticket...",
       "Ticket created successfully!", "Key: " ++ key,
       "URL: " ++ (base ++ "/browse/" ++ key)] := by
  refine ⟨?_, ?_, ?_⟩
  · rw [run_json_ok henv hty hpr]
  · rw [run_json_ok henv hty hpr]
  · rw [run_json_ok henv hty hpr]
    simp [envVal_eq hb, String.append_assoc]

/-- Witness for the amended C4 at a concrete successful run. -/
theorem c4_amended_witness :
    firstBadVar envDistinct = none ∧
    envDistinct "JIRA_BASE_URL" = some "https://x.example" ∧
    (run envDistinct ⟨"Task", "High", "i"⟩
        (.json ⟨.str "s", .str "d", .str "a"⟩) (.ok "PROJ-9")).stdout =
      ["Generating ticket content using AI...", "Creating Jira ticket...",
       "Ticket created successfully!", "Key: " ++ "PROJ-9",
       "URL: " ++ ("https://x.example" ++ "/browse/" ++ "PROJ-9")] :=
  ⟨by decide, by decide,
    (c4_amended_success_output envDistinct ⟨"Task", "High", "i"⟩
      ⟨.str "s", .str "d", .str "a"⟩ "PROJ-9" "https://x.example"
      (by decide) (by decide) (by decide) (by decide)).2.2⟩

/-- Claim C10: a parsed reply lacking one of the three keys still proceeds
to submission carrying `undefined` for that field; when `description` or
`acceptanceCriteria` is the missing one, the submitted combined description
contains the literal text `undefined` in its place (at the front for the
description, at the end for the acceptance criteria). -/
theorem c10_undefined_leaks_into_description
    (env : String → Option String) (opts : Options) (g : ParsedReply) (jira : JiraResponse)
    (henv : firstBadVar env = none) (hty : opts.type ∈ validTypes)
    (hpr : opts.priority ∈ validPriorities)
    (_hmiss : g.summary = .undef ∨ g.description = .undef ∨ g.acceptanceCriteria = .undef) :
    (∃ url p hs, NetCall.jiraPost url p hs ∈ (run env opts (.json g) jira).calls ∧
       p.fields.summary = g.summary ∧ p.fields.description = fullDescriptionOf g) ∧
    (g.description = .undef →
      ∃ r, "undefined" ++ r = fullDescriptionOf g) ∧
    (g.acceptanceCriteria = .undef →
      ∃ l, l ++ "undefined" = fullDescriptionOf g) ∧
    (g.description = .undef ∨ g.acceptanceCriteria = .undef →
      OccursIn "undefined".data (fullDescriptionOf g).data) := by
  refine ⟨?_, ?_, ?_, ?_⟩
  · refine ⟨jiraUrlOf env, payloadOf env opts g, headersOf env, ?_, rfl, rfl⟩
    rw [run_json_calls g jira henv hty hpr]
    simp [jiraCallOf]
  · intro hd
    refine ⟨"\n\nAcceptance Criteria:\n" ++ g.acceptanceCriteria.interp, ?_⟩
    simp only [fullDescriptionOf, hd]
    rfl
  · intro ha
    exact ⟨g.description.interp ++ "\n\nAcceptance Criteria:\n",
      by simp [fullDescriptionOf, ha, JsStr.interp]⟩
  · rintro (hd | ha)
    · have hsplit : (fullDescriptionOf g).data =
          "undefined".data ++
            ("\n\nAcceptance Criteria:\n".data ++ g.acceptanceCriteria.interp.data) := by
        simp [fullDescriptionOf, hd, JsStr.interp, data_append, List.append_assoc]
      rw [hsplit]
      exact occursIn_of_left _ ⟨[], [], by simp⟩
    · have hsplit : (fullDescriptionOf g).data =
          g.description.interp.data ++
            ("\n\nAcceptance Criteria:\n".data ++ "undefined".data) := by
        simp [fullDescriptionOf, ha, JsStr.interp, data_append, List.append_assoc]
      rw [hsplit]
      exact occursIn_of_right _ (occursIn_of_right _ ⟨[], [], by simp⟩)

/-- Witness for C10 at a reply missing `description`. -/
theorem c10_witness :
    firstBadVar envAllSet = none ∧
    (⟨"Task", "Low", "i"⟩ : Options).type ∈ validTypes ∧
    (⟨"Task", "Low", "i"⟩ : Options).priority ∈ validPriorities ∧
    ((⟨.str "s", .undef, .str "a"⟩ : ParsedReply).description = .undef ∨
      (⟨.str "s", .undef, .str "a"⟩ : ParsedReply).acceptanceCriteria = .undef) ∧
    OccursIn "undefined".data (fullDescriptionOf ⟨.str "s", .undef, .str "a"⟩).data :=
  ⟨by decide, by decide, by decide, Or.inl rfl,
    (c10_undefined_leaks_into_description envAllSet ⟨"Task", "Low", "i"⟩
      ⟨.str "s", .undef, .str "a"⟩ (.ok "K") (by decide) (by decide) (by decide)
      (Or.inr (Or.inl rfl))).2.2.2 (Or.inl rfl)⟩

/-- Claim C8: the prompt handed to the completion call is `buildPrompt`; for
a Bug request it contains the step `4. Actual Behavior` (while
`3. Expected Behavior` is present for every type); for a Task or Story
request the actual-behavior step is absent (provided, necessarily, that the
free-text input does not itself contain that step text). -/
theorem c8_actual_behavior_step_bug_only
    (env : String → Option String) (ty pr inp : String) (ai : AiResponse) (jira : JiraResponse)
    (henv : firstBadVar env = none) (hty : ty ∈ validTypes) (hpr : pr ∈ validPriorities)
    (hinp : ¬ OccursIn actualStep.data inp.data) :
    (run env ⟨ty, pr, inp⟩ ai jira).calls.head? =
      some (NetCall.openaiCall "gpt-3.5-turbo" (buildPrompt ty pr inp) 1000) ∧
    OccursIn expectedStep.data (buildPrompt ty pr inp).data ∧
    (ty = "Bug" → OccursIn actualStep.data (buildPrompt ty pr inp).data) ∧
    ((ty = "Task" ∨ ty = "Story") → ¬ OccursIn actualStep.data (buildPrompt ty pr inp).data) := by
  refine ⟨?_, ?_, ?_, ?_⟩
  · cases ai with
    | transportError m =>
      rw [run_transport_err jira henv hty hpr]
      rfl
    | notJson =>
      rw [run_not_json jira henv hty hpr]
      rfl
    | json g =>
      cases jira with
      | ok key =>
        rw [run_json_ok henv hty hpr]
        rfl
      | httpError m =>
        rw [run_json_http_err henv hty hpr]
        rfl
  · rw [buildPrompt_data]
    exact occursIn_of_right _ (occursIn_of_right _ (occursIn_of_right _ (occursIn_of_right _
      (occursIn_of_right _ (occursIn_of_right _ (occursIn_of_left _ (by decide)))))))
  · rintro rfl
    rw [buildPrompt_data]
    exact occursIn_of_right _ (occursIn_of_right _ (occursIn_of_right _ (occursIn_of_right _
      (occursIn_of_right _ (occursIn_of_right _ (occursIn_of_right _
        (occursIn_of_left _ (by decide))))))))
  · rintro (rfl | rfl)
    · exact prompt_no_actual_core _ _ _ (by decide) ⟨'T', rfl, by decide⟩ (by decide)
        (no_actual_in_priority pr hpr) hinp
    · exact prompt_no_actual_core _ _ _ (by decide) ⟨'S', rfl, by decide⟩ (by decide)
        (no_actual_in_priority pr hpr) hinp

/-- Witness for C8: a Task request whose input avoids the step text. -/
theorem c8_witness :
    firstBadVar envAllSet = none ∧
    ("Task" : String) ∈ validTypes ∧ ("Low" : String) ∈ validPriorities ∧
    ¬ OccursIn actualStep.data "i".data ∧
    ¬ OccursIn actualStep.data (buildPrompt "Task" "Low" "i").data :=
  ⟨by decide, by decide, by decide, by decide,
    (c8_actual_behavior_step_bug_only envAllSet "Task" "Low" "i" .notJson (.ok "K")
      (by decide) (by decide) (by decide) (by decide)).2.2.2 (Or.inl rfl)⟩

end JiraAuto
